import Mathlib

/-!
Verification of the SIM800 AT-command driver (basanovase/sim800).

Shallow embedding of the command/response engine in sim800/core.py, the
TCP/IP connection controller in sim800/tcpip.py and the geolocation parser
in sim800/gprs.py.  Bytes are modelled as natural numbers below 256 in
lists; the serial transport is modelled by the bytes pending in its receive
buffer together with the bytes that arrive during and after one command's
read window.  Fallible Python code is modelled with Except.
-/

namespace Sim800

/-! ### Python string primitives -/

/-- Characters stripped by Python str.strip() with no argument. -/
def pyWhitespace (c : Char) : Bool :=
  c = ' ' || c = '\t' || c = '\n' || c = '\r' || c = '\x0b' || c = '\x0c'

/-- Python str.strip(): remove leading and trailing whitespace. -/
def pyStrip (s : String) : String :=
  String.mk (((s.toList.dropWhile pyWhitespace).reverse.dropWhile pyWhitespace).reverse)

/-- Substring containment on character lists (Python in-operator on str). -/
def listContainsSub (needle hay : List Char) : Bool :=
  (List.range (hay.length + 1)).any (fun i => needle.isPrefixOf (hay.drop i))

/-- Python substring test: needle in hay. -/
def strContains (hay needle : String) : Bool :=
  listContainsSub needle.toList hay.toList

/-- ASCII bytes of a string, used to build concrete modem responses. -/
def strBytes (s : String) : List Nat :=
  s.toList.map Char.toNat

/-- core.py SIM800._decode_response: best-effort decode of response bytes.
The source first tries strict UTF-8 and falls back to a byte-by-byte decode
that keeps bytes below 128 and replaces the rest by a question mark.  We
model the fallback path directly: on bytes below 128 the two paths agree,
and a byte at 128 or above never contributes to any ASCII protocol token
(the UTF-8 path decodes it into a character at or above U+0080, the
fallback into a question mark), so every substring test on ASCII tokens has
the same truth value under either path. -/
def decode_response (bs : List Nat) : String :=
  String.mk (bs.map (fun b => if b < 128 then Char.ofNat b else '?'))

/-- Python str.upper restricted to ASCII (mode strings are ASCII). -/
def pyUpper (s : String) : String :=
  String.mk (s.toList.map Char.toUpper)

/-- Python slice s[n:]. -/
def strDrop (s : String) (n : Nat) : String :=
  String.mk (s.toList.drop n)

/-- Python slice s[:n]. -/
def strTake (s : String) (n : Nat) : String :=
  String.mk (s.toList.take n)

/-- Worker for pySplit: split a character list on a nonempty separator
given by its head s0 and tail srest; acc holds the current chunk reversed.
Structural recursion on a fuel argument so that the kernel can evaluate it;
each step consumes at least one input character, so fuel equal to the input
length never runs out. -/
def splitOnListAux (s0 : Char) (srest : List Char) :
    Nat → List Char → List Char → List (List Char)
  | _, acc, [] => [acc.reverse]
  | 0, acc, rest => [acc.reverse ++ rest]
  | fuel + 1, acc, c :: cs =>
    if c = s0 && srest.isPrefixOf cs then
      acc.reverse :: splitOnListAux s0 srest fuel [] (cs.drop srest.length)
    else
      splitOnListAux s0 srest fuel (c :: acc) cs

/-- Python str.split(sep) for a nonempty separator (the source never splits
on an empty separator). -/
def pySplit (s sep : String) : List String :=
  match sep.toList with
  | [] => [s]
  | c :: cs => (splitOnListAux c cs s.toList.length [] s.toList).map String.mk

/-! ### Error taxonomy (sim800/exceptions.py)

Each constructor records the fields the corresponding exception class
stores on itself.  otherExc stands for any exception that is not a SIM800
error (platform errors and the like); the retry handler in core.py names
only SIM800CommandError and SIM800TimeoutError, so anything else must
propagate. -/

inductive SimExc where
  | cmdError (command : String) (response : String)
  | timeoutError (command : String) (timeoutMs : Nat)
  | connectionError (message : String) (ip : String) (port : Option Int)
  | valueError (message : String)
  | otherExc (tag : Nat)
deriving DecidableEq

deriving instance DecidableEq for Except

/-- The exception classes named by the except clause in
SIM800.send_command_with_retry (core.py line 87). -/
def isRetryable : SimExc → Bool
  | .cmdError _ _ => true
  | .timeoutError _ _ => true
  | _ => false

/-! ### CommandExecutor (core.py SIM800.send_command)

One command exchange is determined by the transport state: buf is the byte
content of the receive buffer when the command is written, during is what
arrives inside the read window (read_response polls the buffer until the
deadline, so it returns buf followed by during), after is what arrives
once the window has closed and therefore stays pending in the buffer. -/

structure SendOut where
  result : Except SimExc (List Nat)
  buf : List Nat
  writes : List String
deriving DecidableEq

/-- core.py SIM800.send_command: write the command plus carriage return,
accumulate the read window, and raise SIM800CommandError when error
checking is on, the response is nonempty (Python truthiness of the bytes)
and its decoded text contains the token ERROR.  The source never raises
SIM800TimeoutError here, its docstring notwithstanding. -/
def send_command (command : String) (check_error : Bool)
    (buf during after : List Nat) : SendOut :=
  let response := buf ++ during
  let writes := [command ++ "\r"]
  if check_error && !response.isEmpty then
    let response_str := decode_response response
    if strContains response_str "ERROR" then
      { result := .error (.cmdError command (pyStrip response_str)),
        buf := after, writes := writes }
    else
      { result := .ok response, buf := after, writes := writes }
  else
    { result := .ok response, buf := after, writes := writes }

/-- core.py SIM800._clear_uart_buffer: while uart.any(): uart.read().
uart.read() with no argument consumes every pending byte, so the loop
tests the buffer and leaves it empty. -/
def clear_uart_buffer (buf : List Nat) : List Nat :=
  if buf.isEmpty then buf else []

/-! ### RetryPolicy (core.py SIM800.send_command_with_retry)

Two views of the same loop.  The abstract view drives the loop with an
oracle giving each attempt's outcome and counts the attempts, which is
what the retry-contract claims quantify over.  The transport view threads
the receive-buffer state and records a trace of transport events, which is
what the buffer-drain claim needs. -/

/-- The for-loop of send_command_with_retry, from loop index i: run
attempt i; return its value on success; on a retryable error sleep, clear
and continue while i < retries, re-raising the last error once the final
attempt has failed; let any other exception propagate at once.  The second
component is the number of attempts performed (loop index plus one). -/
def retryLoop {α : Type} (attempt : Nat → Except SimExc α) (retries i : Nat) :
    Except SimExc α × Nat :=
  match attempt i with
  | .ok v => (.ok v, i + 1)
  | .error e =>
    if isRetryable e then
      if i < retries then retryLoop attempt retries (i + 1)
      else (.error e, i + 1)
    else (.error e, i + 1)
termination_by retries - i

/-- core.py SIM800.send_command_with_retry, abstract view: the loop started
at attempt index 0. -/
def send_command_with_retry {α : Type} (attempt : Nat → Except SimExc α)
    (retries : Nat) : Except SimExc α × Nat :=
  retryLoop attempt retries 0

/-- Bytes offered by the environment during one attempt: during arrives
inside the read window, after arrives once the window has closed. -/
structure AttemptEnv where
  during : List Nat
  after : List Nat

/-- Transport events of the retry loop: a command write recording the
receive-buffer content at the moment of the write, and a buffer drain
recording the content it removes. -/
inductive TEvent where
  | write (attempt : Nat) (command : String) (bufAtWrite : List Nat)
  | drain (attempt : Nat) (bufBefore : List Nat)
deriving DecidableEq

/-- core.py SIM800.send_command_with_retry, transport view from loop index
attempt with receive buffer buf: each iteration calls send_command (whose
write is recorded together with the buffer content it observes), and a
retryable failure that is not the last attempt drains the buffer with
_clear_uart_buffer before the next iteration. -/
def send_command_with_retry_trace (env : Nat → AttemptEnv) (command : String)
    (check_error : Bool) (retries attempt : Nat) (buf : List Nat) :
    Except SimExc (List Nat) × List Nat × List TEvent :=
  let e := env attempt
  let out := send_command command check_error buf e.during e.after
  match out.result with
  | .ok v => (.ok v, out.buf, [.write attempt command buf])
  | .error err =>
    if attempt < retries then
      let rest := send_command_with_retry_trace env command check_error retries
        (attempt + 1) (clear_uart_buffer out.buf)
      (rest.1, rest.2.1,
        .write attempt command buf :: .drain attempt out.buf :: rest.2.2)
    else
      (.error err, out.buf, [.write attempt command buf])
termination_by retries - attempt

/-- A write event is ill-placed after event x when it observes a nonempty
buffer or does not directly follow a drain. -/
def pairOk (x y : TEvent) : Bool :=
  match y with
  | .write _ _ b => (match x with | .drain _ _ => true | _ => false) && b.isEmpty
  | .drain _ _ => true

/-- Every write event other than the first directly follows a drain event
and observes an empty receive buffer. -/
def noStaleWrites : List TEvent → Bool
  | [] => true
  | [_] => true
  | x :: y :: rest => pairOk x y && noStaleWrites (y :: rest)

/-! ### ResponseParsers: network time (core.py SIM800.get_network_time)

The body of the try block in get_network_time is a chain of Python string
operations whose only possible exceptions, given a string input, are
IndexError (subscripting a split list) and ValueError (tuple-unpacking a
split of the wrong arity, or int() on a non-numeric string).  Each step is
modelled with a typed error so that the except (IndexError, ValueError)
clause can be checked to cover everything the steps can raise; otherError
stands for every other Python exception kind. -/

inductive PyExc where
  | indexError
  | valueError
  | otherError
deriving DecidableEq

/-- Python list subscript l[n]: IndexError when out of range. -/
def pyGet {α : Type} (l : List α) (n : Nat) : Except PyExc α :=
  match l.get? n with
  | some x => .ok x
  | none => .error .indexError

/-- Python tuple unpacking a, b = l: ValueError unless l has exactly two
elements. -/
def unpack2 {α : Type} : List α → Except PyExc (α × α)
  | [a, b] => .ok (a, b)
  | _ => .error .valueError

/-- Python tuple unpacking a, b, c = l: ValueError unless l has exactly
three elements. -/
def unpack3 {α : Type} : List α → Except PyExc (α × α × α)
  | [a, b, c] => .ok (a, b, c)
  | _ => .error .valueError

/-- Digits to a natural number, most significant first. -/
def digitsToNat (cs : List Char) : Nat :=
  cs.foldl (fun a c => a * 10 + (c.toNat - 48)) 0

/-- Python int(s): surrounding whitespace allowed, optional sign, then a
nonempty digit string; anything else is a ValueError.  (Underscores
between digits, which Python also accepts, never occur in modem replies
and are not modelled.) -/
def pyInt (s : String) : Except PyExc Int :=
  match (pyStrip s).toList with
  | [] => .error .valueError
  | c :: rest =>
    let digits := if c = '-' || c = '+' then rest else c :: rest
    let sign : Int := if c = '-' then -1 else 1
    if !digits.isEmpty && digits.all Char.isDigit then
      .ok (sign * (digitsToNat digits : Int))
    else
      .error .valueError

/-- Index of the last occurrence of c among the characters of l starting
at offset i, if any (worker for Python str.rfind). -/
def rfindAux (c : Char) : List Char → Nat → Option Nat
  | [], _ => none
  | x :: xs, i =>
    match rfindAux c xs (i + 1) with
    | some j => some j
    | none => if x = c then some i else none

/-- Python s.rfind(c): index of the last occurrence, -1 when absent. -/
def rfind (s : String) (c : Char) : Int :=
  match rfindAux c s.toList 0 with
  | some i => (i : Int)
  | none => -1

structure ParsedTime where
  year : Int
  month : Int
  day : Int
  hour : Int
  minute : Int
  second : Int
  timezone : String
deriving DecidableEq

/-- The timezone branch of the try block in core.py get_network_time:
find the sign in the time segment (a plus anywhere, split on it; else a
minus beyond the first two characters, cut at the last minus; else default
zone +00) and return the remaining time text with the zone text. -/
def splitTimezone (time_part : String) : Except PyExc (String × String) :=
  if strContains time_part "+" then do
    let (a, b) ← unpack2 (pySplit time_part "+")
    Except.ok (a, "+" ++ b)
  else if strContains (strDrop time_part 2) "-" then
    let idx := (rfind time_part '-').toNat
    Except.ok (strTake time_part idx, strDrop time_part idx)
  else
    Except.ok (time_part, "+00")

/-- The try block of core.py get_network_time, on the decoded response
text: take the text after +CCLK:, take the quoted payload, split it on the
comma into date and time, split the date on slashes, split off the
timezone, split the time on colons, and convert the six fields with
int(), offsetting the year by 2000. -/
def parseCclk (response_str : String) : Except PyExc ParsedTime := do
  let part1 ← pyGet (pySplit response_str "+CCLK:") 1
  let time_str ← pyGet (pySplit part1 "\"") 1
  let (date_part, time_part) ← unpack2 (pySplit time_str ",")
  let (year, month, day) ← unpack3 (pySplit date_part "/")
  let (time_only, tz) ← splitTimezone time_part
  let (hour, minute, second) ← unpack3 (pySplit time_only ":")
  let y ← pyInt year
  let mo ← pyInt month
  let d ← pyInt day
  let h ← pyInt hour
  let mi ← pyInt minute
  let s ← pyInt second
  Except.ok { year := y + 2000, month := mo, day := d, hour := h,
              minute := mi, second := s, timezone := tz }

/-- core.py SIM800.get_network_time after the command exchange, on the
decoded response text: when the text lacks +CCLK: the result is None;
otherwise the try block runs and its IndexError or ValueError is caught
and turned into None, while any other exception kind would propagate. -/
def get_network_time (response_str : String) : Except PyExc (Option ParsedTime) :=
  if strContains response_str "+CCLK:" then
    match parseCclk response_str with
    | .ok t => .ok (some t)
    | .error e =>
      if e = .indexError || e = .valueError then .ok none else .error e
  else
    .ok none

/-! ### ResponseParsers: geolocation (gprs.py SIM800GPRS.get_gsm_location) -/

/-- Syntactic validity for Python float(s): surrounding whitespace,
optional sign, then either a decimal form (digits with an optional point
and optional fractional digits, or a point with digits) optionally
followed by an exponent, or the words inf, infinity or nan in any case. -/
def pyFloatValid (s : String) : Bool :=
  let body (cs : List Char) : Bool :=
    let word := String.mk (cs.map Char.toLower)
    if word = "inf" || word = "infinity" || word = "nan" then true
    else
      let (mantissa, expo) :=
        match cs.span (fun c => c ≠ 'e' && c ≠ 'E') with
        | (m, []) => (m, none)
        | (m, _ :: rest) => (m, some rest)
      let mantOk :=
        let (int_digits, rest) := mantissa.span Char.isDigit
        match rest with
        | [] => !int_digits.isEmpty
        | '.' :: frac => (!int_digits.isEmpty || !frac.isEmpty) && frac.all Char.isDigit
        | _ => false
      let expOk :=
        match expo with
        | none => true
        | some e =>
          let digits := match e with
            | c :: rest => if c = '+' || c = '-' then rest else e
            | [] => []
          !digits.isEmpty && digits.all Char.isDigit
      mantOk && expOk
  match (pyStrip s).toList with
  | [] => false
  | c :: rest => if c = '+' || c = '-' then body rest else body (c :: rest)

/-- Result of get_gsm_location: either the parsed record or the raw
response passed through.  The source converts longitude and latitude with
float(); no claim inspects the numeric values, so the record keeps the
validated literal text of the two coordinates. -/
inductive GsmLocResult where
  | record (longitude latitude date time : String)
  | raw (response : String)
deriving DecidableEq

/-- gprs.py SIM800GPRS.get_gsm_location after the command exchange, on the
decoded response text: when the text contains +CIPGSMLOC: and splitting
the tail on commas yields at least five fields whose first strips to 0 and
whose coordinate fields parse as floats, the parsed record is returned,
with the time field stripped and truncated at the first carriage return;
every other case falls through to returning the raw response. -/
def get_gsm_location (response_str : String) : GsmLocResult :=
  if strContains response_str "+CIPGSMLOC:" then
    match (pySplit response_str "+CIPGSMLOC:").get? 1 with
    | none => .raw response_str
    | some part1 =>
      match pySplit part1 "," with
      | p0 :: p1 :: p2 :: p3 :: p4 :: _ =>
        if pyStrip p0 = "0" then
          if pyFloatValid (pyStrip p1) && pyFloatValid (pyStrip p2) then
            .record (pyStrip p1) (pyStrip p2) (pyStrip p3)
              ((pySplit (pyStrip p4) "\r").headD "")
          else
            .raw response_str
        else
          .raw response_str
      | _ => .raw response_str
  else
    .raw response_str

/-! ### ConnectionController (tcpip.py SIM800TCPIP)

The port argument reaches _validate_port through Python int(); it is
modelled as some n when the conversion succeeds with value n and none when
int() raises.  Connection attempts are driven by an oracle env giving the
bytes each attempt's read window accumulates; start_tcp_connection does
not touch the receive buffer between its attempts, so one attempt is
send_command on an empty initial buffer with env i arriving in-window.
Error messages built with str.format are carried but abbreviated to their
fixed prefix; no claim inspects a Validation or Connection message, only
the ip and port fields. -/

/-- tcpip.py SIM800TCPIP._validate_port: int conversion failure, or a
value outside 1..65535, is a ValueError (the range branch raises and the
surrounding except re-raises under the fixed message). -/
def validate_port (port : Option Int) : Except SimExc Unit :=
  match port with
  | some n => if 1 ≤ n && n ≤ 65535 then .ok () else .error (.valueError "Invalid port")
  | none => .error (.valueError "Invalid port")

/-- tcpip.py SIM800TCPIP._validate_ip_or_host: empty, or stripping to
empty, is a ValueError. -/
def validate_ip_or_host (ip : String) : Except SimExc Unit :=
  if ip.isEmpty || (pyStrip ip).isEmpty then
    .error (.valueError "IP address or hostname cannot be empty")
  else
    .ok ()

/-- Rendering of the port into the AT+CIPSTART command string. -/
def portText : Option Int → String
  | some n => toString n
  | none => ""

/-- The for-loop of tcpip.py start_tcp_connection, from loop index i with
i < attempts: run send_command with error checking on; a CommandError is
caught and recorded as a ConnectionError carrying ip and port; a returned
response containing CONNECT OK or ALREADY CONNECT is returned at once, one
containing CONNECT FAIL records a ConnectionError, and any other response
is returned at once; a recorded error leads to the next iteration while
one remains and is raised after the last.  The second component counts the
attempts performed, each of which writes the command exactly once. -/
def tcpLoop (env : Nat → List Nat) (command ip : String) (port : Option Int)
    (attempts i : Nat) : Except SimExc (List Nat) × Nat :=
  let out := send_command command true [] (env i) []
  let step : Except SimExc (List Nat) ⊕ SimExc :=
    match out.result with
    | .error _ => .inr (.connectionError "Connection failed: " ip port)
    | .ok response =>
      let response_str := decode_response response
      if strContains response_str "CONNECT OK" ||
          strContains response_str "ALREADY CONNECT" then
        .inl (.ok response)
      else if strContains response_str "CONNECT FAIL" then
        .inr (.connectionError "Failed to connect to " ip port)
      else
        .inl (.ok response)
  match step with
  | .inl res => (res, i + 1)
  | .inr last_error =>
    if i + 1 < attempts then tcpLoop env command ip port attempts (i + 1)
    else (.error last_error, i + 1)
termination_by attempts - i

/-- tcpip.py SIM800TCPIP.start_tcp_connection: uppercase the mode and
require TCP or UDP, validate host then port (all before any transport
write), build the AT+CIPSTART command, and run the attempt loop retries+1
times when retry is set, once otherwise.  The second component is the
number of attempts performed, which equals the number of transport writes
issued. -/
def start_tcp_connection (env : Nat → List Nat) (mode ip : String)
    (port : Option Int) (retry : Bool) (retries : Nat) :
    Except SimExc (List Nat) × Nat :=
  let m := pyUpper mode
  if m = "TCP" || m = "UDP" then
    match validate_ip_or_host ip with
    | .error e => (.error e, 0)
    | .ok () =>
      match validate_port port with
      | .error e => (.error e, 0)
      | .ok () =>
        let command :=
          "AT+CIPSTART=\"" ++ m ++ "\",\"" ++ ip ++ "\",\"" ++ portText port ++ "\""
        let attempts := if retry then retries + 1 else 1
        tcpLoop env command ip port attempts 0
  else
    (.error (.valueError "Mode must be TCP or UDP"), 0)

/-- tcpip.py SIM800TCPIP.close_tcp_connection: send AT+CIPCLOSE=1 with
error checking disabled, on the current transport state. -/
def close_tcp_connection (buf during after : List Nat) : SendOut :=
  send_command "AT+CIPCLOSE=1" false buf during after

/-- tcpip.py SIM800TCPIP.close_udp_connection: identical close command,
error checking disabled. -/
def close_udp_connection (buf during after : List Nat) : SendOut :=
  send_command "AT+CIPCLOSE=1" false buf during after

/-! ### Derived classification predicates -/

/-- Success classification of a connection response
(tcpip.py start_tcp_connection line 62). -/
def isSuccessResp (s : String) : Bool :=
  strContains s "CONNECT OK" || strContains s "ALREADY CONNECT"

/-- Failure classification of a connection response
(tcpip.py start_tcp_connection line 64). -/
def isFailResp (s : String) : Bool :=
  strContains s "CONNECT FAIL"

/-- A connection attempt whose decoded read window s makes the loop record
an error and continue: either send_command raises (the text contains
ERROR), or the response is classified CONNECT FAIL without being
classified as a success first. -/
def failingAttempt (s : String) : Bool :=
  strContains s "ERROR" || (!isSuccessResp s && isFailResp s)

/-- The outcome is a SIM800ConnectionError carrying the given ip and port
fields. -/
def isConnectionFailureTo (r : Except SimExc (List Nat)) (ip : String)
    (port : Option Int) : Bool :=
  match r with
  | .error (.connectionError _ i p) => i == ip && p == port
  | _ => false

/-- The outcome is a ValueError, the Validation error kind. -/
def isValidationFailure (r : Except SimExc (List Nat)) : Bool :=
  match r with
  | .error (.valueError _) => true
  | _ => false

/-! ### Lemmas about the command executor -/

/-- Closed form of the send_command result: a CommandError carrying the
command and the stripped decoded text exactly when error checking is on
and the decoded read window contains ERROR, the raw accumulated bytes
otherwise. -/
theorem send_command_result (command : String) (ce : Bool)
    (buf during after : List Nat) :
    (send_command command ce buf during after).result =
      if ce && strContains (decode_response (buf ++ during)) "ERROR" then
        .error (.cmdError command (pyStrip (decode_response (buf ++ during))))
      else
        .ok (buf ++ during) := by
  cases ce with
  | false => simp [send_command]
  | true =>
    rcases hr : buf ++ during with _ | ⟨a, l⟩
    · simp only [send_command, hr, List.isEmpty_nil, Bool.not_true, Bool.and_false,
        Bool.false_eq_true, if_false, Bool.true_and]
      rw [show strContains (decode_response []) "ERROR" = false from by decide]
      simp
    · simp only [send_command, hr, List.isEmpty_cons, Bool.not_false, Bool.and_true,
        Bool.true_and, if_true]
      split <;> simp_all

/-- C1: send_command never fails on an empty read window.  The claim (with
the source's own docstring and tests) requires a Timeout(command, timeout)
failure when the accumulated response is empty and a response is required;
the source has no require_response parameter and raises no
SIM800TimeoutError anywhere, so an empty window always yields the empty
result, shown here for every command, error-check flag and late-arrival
content. -/
theorem send_command_empty_window_returns_empty (command : String) (ce : Bool)
    (after : List Nat) :
    (send_command command ce [] [] after).result = .ok [] := by
  rw [show (send_command command ce [] [] after).result
        = (send_command command ce [] [] after).result from rfl,
    send_command_result]
  rw [show strContains (decode_response ([] ++ [])) "ERROR" = false from by decide]
  simp

/-- C3: send_command fails with a Command error carrying the command text
and the (stripped) decoded response exactly when error checking is enabled
and the decoded accumulated response contains the literal substring ERROR;
in every other case the raw accumulated bytes are returned. -/
theorem send_command_error_iff (command : String) (ce : Bool)
    (buf during after : List Nat) :
    ((send_command command ce buf during after).result =
        .error (.cmdError command (pyStrip (decode_response (buf ++ during)))) ↔
      ce = true ∧ strContains (decode_response (buf ++ during)) "ERROR" = true) ∧
    (¬(ce = true ∧ strContains (decode_response (buf ++ during)) "ERROR" = true) →
      (send_command command ce buf during after).result = .ok (buf ++ during)) := by
  rw [send_command_result]
  by_cases h : (ce && strContains (decode_response (buf ++ during)) "ERROR") = true
  · rw [if_pos h]
    rw [Bool.and_eq_true] at h
    exact ⟨⟨fun _ => h, fun _ => rfl⟩, fun hn => absurd h hn⟩
  · rw [if_neg h]
    rw [Bool.and_eq_true] at h
    exact ⟨⟨fun hek => Except.noConfusion hek, fun hc => absurd hc h⟩, fun _ => rfl⟩

/-- Witness for C3 at a concrete successful exchange: error checking on,
response OK, no ERROR token, raw bytes returned. -/
theorem send_command_error_iff_witness :
    ¬(true = true ∧
        strContains (decode_response ([] ++ strBytes "OK\r\n")) "ERROR" = true) ∧
    (send_command "AT" true [] (strBytes "OK\r\n") []).result =
      .ok ([] ++ strBytes "OK\r\n") :=
  ⟨by decide, (send_command_error_iff "AT" true [] (strBytes "OK\r\n") []).2 (by decide)⟩

/-- C10: close_tcp_connection and close_udp_connection issue AT+CIPCLOSE=1
with error checking disabled and return the raw accumulated response for
every transport state, including windows whose text contains ERROR; no
Command error can result. -/
theorem close_connection_never_raises (buf during after : List Nat) :
    (close_tcp_connection buf during after).result = .ok (buf ++ during) ∧
    (close_tcp_connection buf during after).writes = ["AT+CIPCLOSE=1\r"] ∧
    (close_udp_connection buf during after).result = .ok (buf ++ during) ∧
    (close_udp_connection buf during after).writes = ["AT+CIPCLOSE=1\r"] := by
  refine ⟨?_, rfl, ?_, rfl⟩ <;>
    simp [close_tcp_connection, close_udp_connection, send_command]

/-- C7: the three clock payloads of the claim parse to the stated records;
in particular the minus sign beyond the leading characters of the time
segment is taken as the timezone sign, and a payload with no sign defaults
to zone +00. -/
theorem get_network_time_examples :
    get_network_time "+CCLK: \"24/12/08,14:30:45+04\"\r\nOK\r\n" =
      .ok (some { year := 2024, month := 12, day := 8, hour := 14,
                  minute := 30, second := 45, timezone := "+04" }) ∧
    get_network_time "+CCLK: \"25/06/15,09:15:30-08\"\r\nOK\r\n" =
      .ok (some { year := 2025, month := 6, day := 15, hour := 9,
                  minute := 15, second := 30, timezone := "-08" }) ∧
    get_network_time "+CCLK: \"23/01/01,00:00:00\"\r\nOK\r\n" =
      .ok (some { year := 2023, month := 1, day := 1, hour := 0,
                  minute := 0, second := 0, timezone := "+00" }) := by
  refine ⟨?_, ?_, ?_⟩ <;> decide

/-- C9: at the non-zero status response the operation returns the raw
response as an ordinary value instead of surfacing an error; the repo's
own tests require SIM800CommandError here, so this evaluates the divergent
code path at the failing input. -/
theorem get_gsm_location_nonzero_status_returns_raw :
    get_gsm_location "+CIPGSMLOC: 601\r\nOK\r\n" =
      .raw "+CIPGSMLOC: 601\r\nOK\r\n" ∧
    get_gsm_location "+CIPGSMLOC: 0,invalid\r\n" = .raw "+CIPGSMLOC: 0,invalid\r\n" ∧
    get_gsm_location "+CIPGSMLOC: 0,-122.4194,37.7749,2024/12/08,14:30:00\r\nOK\r\n" =
      .record "-122.4194" "37.7749" "2024/12/08" "14:30:00" := by
  refine ⟨?_, ?_, ?_⟩ <;> decide

/-! ### Lemmas about the retry loop -/

theorem retryLoop_count_le {α : Type} (attempt : Nat → Except SimExc α)
    (retries : Nat) :
    ∀ n i, i ≤ retries → retries - i ≤ n →
      (retryLoop attempt retries i).2 ≤ retries + 1 := by
  intro n
  induction n with
  | zero =>
    intro i hi hn
    have hie : i = retries := by omega
    subst hie
    rw [retryLoop.eq_def]
    rcases ha : attempt i with e | v
    · simp only [ha]
      by_cases hre : isRetryable e = true
      · simp [hre]
      · simp [hre]
    · simp [ha]
  | succ n ih =>
    intro i hi hn
    rw [retryLoop.eq_def]
    rcases ha : attempt i with e | v
    · simp only [ha]
      by_cases hre : isRetryable e = true
      · by_cases hlt : i < retries
        · simp only [hre, hlt, if_true]
          exact ih (i + 1) (by omega) (by omega)
        · simp [hre, hlt]
          omega
      · simp [hre]
        omega
    · simp [ha]
      omega

theorem retryLoop_ok {α : Type} (attempt : Nat → Except SimExc α)
    (retries k : Nat) (v : α) (hk : k ≤ retries)
    (hfail : ∀ j, j < k → ∃ e, attempt j = .error e ∧ isRetryable e = true)
    (hok : attempt k = .ok v) :
    ∀ n i, i ≤ k → k - i ≤ n →
      retryLoop attempt retries i = (.ok v, k + 1) := by
  intro n
  induction n with
  | zero =>
    intro i hi hn
    have hie : i = k := by omega
    subst hie
    rw [retryLoop.eq_def]
    simp [hok]
  | succ n ih =>
    intro i hi hn
    by_cases hie : i = k
    · subst hie
      rw [retryLoop.eq_def]
      simp [hok]
    · have hik : i < k := by omega
      obtain ⟨e, he, hre⟩ := hfail i hik
      have hlt : i < retries := by omega
      rw [retryLoop.eq_def]
      simp only [he, hre, hlt, if_true]
      exact ih (i + 1) (by omega) (by omega)

theorem retryLoop_all_fail {α : Type} (attempt : Nat → Except SimExc α)
    (retries : Nat) (e : SimExc)
    (hfail : ∀ j, j ≤ retries → ∃ ej, attempt j = .error ej ∧ isRetryable ej = true)
    (hlast : attempt retries = .error e) :
    ∀ n i, i ≤ retries → retries - i ≤ n →
      retryLoop attempt retries i = (.error e, retries + 1) := by
  intro n
  induction n with
  | zero =>
    intro i hi hn
    have hie : i = retries := by omega
    subst hie
    obtain ⟨ej, hej, hre⟩ := hfail i (by omega)
    rw [hej] at hlast
    cases hlast
    rw [retryLoop.eq_def]
    simp [hej, hre]
  | succ n ih =>
    intro i hi hn
    by_cases hie : i = retries
    · subst hie
      obtain ⟨ej, hej, hre⟩ := hfail i (by omega)
      rw [hej] at hlast
      cases hlast
      rw [retryLoop.eq_def]
      simp [hej, hre]
    · have hlt : i < retries := by omega
      obtain ⟨ej, hej, hre⟩ := hfail i (by omega)
      rw [retryLoop.eq_def]
      simp only [hej, hre, hlt, if_true]
      exact ih (i + 1) (by omega) (by omega)

theorem retryLoop_non_retryable {α : Type} (attempt : Nat → Except SimExc α)
    (retries k : Nat) (e : SimExc) (hk : k ≤ retries)
    (hfail : ∀ j, j < k → ∃ ej, attempt j = .error ej ∧ isRetryable ej = true)
    (he : attempt k = .error e) (hre : isRetryable e = false) :
    ∀ n i, i ≤ k → k - i ≤ n →
      retryLoop attempt retries i = (.error e, k + 1) := by
  intro n
  induction n with
  | zero =>
    intro i hi hn
    have hie : i = k := by omega
    subst hie
    rw [retryLoop.eq_def]
    simp [he, hre]
  | succ n ih =>
    intro i hi hn
    by_cases hie : i = k
    · subst hie
      rw [retryLoop.eq_def]
      simp [he, hre]
    · have hik : i < k := by omega
      obtain ⟨ej, hej, hrj⟩ := hfail i hik
      have hlt : i < retries := by omega
      rw [retryLoop.eq_def]
      simp only [hej, hrj, hlt, if_true]
      exact ih (i + 1) (by omega) (by omega)

/-- C2: the retry wrapper performs at most retries+1 attempts; an attempt
that succeeds returns its value at once with no further attempts; only
Command and Timeout failures (the retryable kinds) lead to another
attempt, any other exception propagating at once; and when every attempt
fails retryably the exception of the final attempt is re-raised as the
very same value, kind and fields included. -/
theorem send_command_with_retry_contract {α : Type}
    (attempt : Nat → Except SimExc α) (retries : Nat) :
    (send_command_with_retry attempt retries).2 ≤ retries + 1 ∧
    (∀ k v, k ≤ retries →
      (∀ j, j < k → ∃ e, attempt j = .error e ∧ isRetryable e = true) →
      attempt k = .ok v →
      send_command_with_retry attempt retries = (.ok v, k + 1)) ∧
    ((∀ j, j ≤ retries → ∃ e, attempt j = .error e ∧ isRetryable e = true) →
      ∀ e, attempt retries = .error e →
      send_command_with_retry attempt retries = (.error e, retries + 1)) ∧
    (∀ k e, k ≤ retries →
      (∀ j, j < k → ∃ ej, attempt j = .error ej ∧ isRetryable ej = true) →
      attempt k = .error e → isRetryable e = false →
      send_command_with_retry attempt retries = (.error e, k + 1)) := by
  refine ⟨?_, ?_, ?_, ?_⟩
  · exact retryLoop_count_le attempt retries retries 0 (by omega) (by omega)
  · intro k v hk hfail hok
    exact retryLoop_ok attempt retries k v hk hfail hok k 0 (by omega) (by omega)
  · intro hfail e hlast
    exact retryLoop_all_fail attempt retries e hfail hlast retries 0 (by omega) (by omega)
  · intro k e hk hfail he hre
    exact retryLoop_non_retryable attempt retries k e hk hfail he hre k 0 (by omega) (by omega)

/-- Witness for C2: against a dependency that fails retryably twice and
then succeeds, send_command_with_retry with retries = 2 performs exactly 3
attempts and returns the success value. -/
theorem send_command_with_retry_contract_witness :
    send_command_with_retry
      (fun j => if j < 2 then Except.error (SimExc.timeoutError "AT" 1000)
                else Except.ok (strBytes "OK\r\n")) 2 =
      (.ok (strBytes "OK\r\n"), 3) := by
  refine (send_command_with_retry_contract
    (fun j => if j < 2 then Except.error (SimExc.timeoutError "AT" 1000)
              else Except.ok (strBytes "OK\r\n")) 2).2.1 2 (strBytes "OK\r\n")
    (by omega) ?_ (by simp)
  intro j hj
  exact ⟨SimExc.timeoutError "AT" 1000, by simp [hj], rfl⟩

/-! ### Lemmas about the transport-level retry trace -/

theorem clear_uart_buffer_empties (buf : List Nat) : clear_uart_buffer buf = [] := by
  cases buf <;> simp [clear_uart_buffer]

theorem noStaleWrites_cons_cons (x y : TEvent) (tr : List TEvent) :
    noStaleWrites (x :: y :: tr) = (pairOk x y && noStaleWrites (y :: tr)) := rfl

theorem retry_trace_shape (env : Nat → AttemptEnv) (command : String)
    (ce : Bool) (retries : Nat) :
    ∀ n attempt buf, retries - attempt ≤ n →
      (send_command_with_retry_trace env command ce retries attempt buf).2.2.head? =
        some (.write attempt command buf) ∧
      noStaleWrites
        (send_command_with_retry_trace env command ce retries attempt buf).2.2 = true := by
  intro n
  induction n with
  | zero =>
    intro attempt buf hn
    have hlt : ¬ attempt < retries := by omega
    rw [send_command_with_retry_trace.eq_def]
    rcases hres : (send_command command ce buf (env attempt).during
        (env attempt).after).result with e | v
    · simp [hres, hlt, noStaleWrites]
    · simp [hres, noStaleWrites]
  | succ n ih =>
    intro attempt buf hn
    rw [send_command_with_retry_trace.eq_def]
    rcases hres : (send_command command ce buf (env attempt).during
        (env attempt).after).result with e | v
    · by_cases hlt : attempt < retries
      · simp only [hres, hlt, if_true]
        rw [clear_uart_buffer_empties]
        obtain ⟨hhead, hnsw⟩ := ih (attempt + 1) [] (by omega)
        rcases htr : (send_command_with_retry_trace env command ce retries
            (attempt + 1) []).2.2 with _ | ⟨w, tail⟩
        · rw [htr] at hhead
          simp at hhead
        · rw [htr] at hhead hnsw
          simp only [List.head?_cons, Option.some.injEq] at hhead
          subst hhead
          refine ⟨rfl, ?_⟩
          rw [noStaleWrites_cons_cons, noStaleWrites_cons_cons]
          simp only [pairOk, List.isEmpty_nil, Bool.and_true, Bool.true_and]
          exact hnsw
      · simp [hres, hlt, noStaleWrites]
    · simp [hres, noStaleWrites]

/-- C4: in the transport trace of send_command_with_retry, the buffer
drain empties the receive buffer completely (first conjunct), and every
command write after the first — that is, the write of every attempt that
follows a retryable failure — directly follows a drain event and observes
an empty receive buffer, for every environment, command, error-check
flag, retry bound and initial buffer content (second conjunct): no later
attempt observes stale bytes from an earlier one. -/
theorem retry_drains_buffer_before_next_write (env : Nat → AttemptEnv)
    (command : String) (ce : Bool) (retries : Nat) (buf0 : List Nat) :
    (∀ buf, clear_uart_buffer buf = []) ∧
    noStaleWrites
      (send_command_with_retry_trace env command ce retries 0 buf0).2.2 = true :=
  ⟨clear_uart_buffer_empties,
    (retry_trace_shape env command ce retries retries 0 buf0 (by omega)).2⟩

/-! ### Lemmas about the clock parser: which exception kinds the try
block can produce -/

theorem bind_error_kind {α β : Type} (x : Except PyExc α)
    (f : α → Except PyExc β) (e : PyExc) (h : (x >>= f) = .error e) :
    x = .error e ∨ ∃ a, x = .ok a ∧ f a = .error e := by
  cases x with
  | error e0 =>
    left
    have hb : (Except.error e0 >>= f : Except PyExc β) = Except.error e0 := rfl
    rw [hb] at h
    injection h with h
    rw [h]
  | ok a =>
    right
    have hb : (Except.ok a >>= f : Except PyExc β) = f a := rfl
    rw [hb] at h
    exact ⟨a, rfl, h⟩

theorem pyGet_error_kind {α : Type} (l : List α) (n : Nat) (e : PyExc)
    (h : pyGet l n = .error e) : e = .indexError := by
  unfold pyGet at h
  cases hg : l.get? n with
  | none => rw [hg] at h; simp at h; exact h.symm
  | some x => rw [hg] at h; simp at h

theorem unpack2_error_kind {α : Type} (l : List α) (e : PyExc)
    (h : unpack2 l = .error e) : e = .valueError := by
  rcases l with _ | ⟨a, _ | ⟨b, _ | ⟨c, rest⟩⟩⟩
  · simp [unpack2] at h
    exact h.symm
  · simp [unpack2] at h
    exact h.symm
  · simp [unpack2] at h
  · simp [unpack2] at h
    exact h.symm

theorem unpack3_error_kind {α : Type} (l : List α) (e : PyExc)
    (h : unpack3 l = .error e) : e = .valueError := by
  rcases l with _ | ⟨a, _ | ⟨b, _ | ⟨c, _ | ⟨d, rest⟩⟩⟩⟩
  · simp [unpack3] at h
    exact h.symm
  · simp [unpack3] at h
    exact h.symm
  · simp [unpack3] at h
    exact h.symm
  · simp [unpack3] at h
  · simp [unpack3] at h
    exact h.symm

theorem pyInt_error_kind (s : String) (e : PyExc) :
    pyInt s = .error e → e = .valueError := by
  unfold pyInt
  rcases hl : (pyStrip s).toList with _ | ⟨c, rest⟩
  · intro h
    simp at h
    exact h.symm
  · intro h
    simp only [] at h
    split at h <;> split at h <;> simp at h
    all_goals exact h.symm

theorem splitTimezone_error_kind (time_part : String) (e : PyExc)
    (h : splitTimezone time_part = .error e) : e = .valueError := by
  unfold splitTimezone at h
  by_cases hc1 : strContains time_part "+" = true
  · rw [if_pos hc1] at h
    rcases bind_error_kind _ _ _ h with h2 | ⟨pz, _, h2⟩
    · exact unpack2_error_kind _ _ h2
    · obtain ⟨a, b⟩ := pz
      simp at h2
  · rw [if_neg hc1] at h
    by_cases hc2 : strContains (strDrop time_part 2) "-" = true
    · rw [if_pos hc2] at h
      simp at h
    · rw [if_neg hc2] at h
      simp at h

theorem parseCclk_error_kind (s : String) (e : PyExc)
    (h : parseCclk s = .error e) : e = .indexError ∨ e = .valueError := by
  unfold parseCclk at h
  rcases bind_error_kind _ _ _ h with h1 | ⟨part1, _, h⟩
  · exact Or.inl (pyGet_error_kind _ _ _ h1)
  rcases bind_error_kind _ _ _ h with h1 | ⟨time_str, _, h⟩
  · exact Or.inl (pyGet_error_kind _ _ _ h1)
  rcases bind_error_kind _ _ _ h with h1 | ⟨p2, _, h⟩
  · exact Or.inr (unpack2_error_kind _ _ h1)
  obtain ⟨date_part, time_part⟩ := p2
  rcases bind_error_kind _ _ _ h with h1 | ⟨p3, _, h⟩
  · exact Or.inr (unpack3_error_kind _ _ h1)
  obtain ⟨year, month, day⟩ := p3
  rcases bind_error_kind _ _ _ h with h1 | ⟨ptz, _, h⟩
  · exact Or.inr (splitTimezone_error_kind _ _ h1)
  obtain ⟨time_only, tz⟩ := ptz
  rcases bind_error_kind _ _ _ h with h1 | ⟨p4, _, h⟩
  · exact Or.inr (unpack3_error_kind _ _ h1)
  obtain ⟨hour, minute, second⟩ := p4
  rcases bind_error_kind _ _ _ h with h1 | ⟨y, _, h⟩
  · exact Or.inr (pyInt_error_kind _ _ h1)
  rcases bind_error_kind _ _ _ h with h1 | ⟨mo, _, h⟩
  · exact Or.inr (pyInt_error_kind _ _ h1)
  rcases bind_error_kind _ _ _ h with h1 | ⟨d, _, h⟩
  · exact Or.inr (pyInt_error_kind _ _ h1)
  rcases bind_error_kind _ _ _ h with h1 | ⟨hh, _, h⟩
  · exact Or.inr (pyInt_error_kind _ _ h1)
  rcases bind_error_kind _ _ _ h with h1 | ⟨mi, _, h⟩
  · exact Or.inr (pyInt_error_kind _ _ h1)
  rcases bind_error_kind _ _ _ h with h1 | ⟨se, _, h⟩
  · exact Or.inr (pyInt_error_kind _ _ h1)
  simp at h

/-- C8: the clock parser never propagates an exception: for every response
text its result is a defined value (first conjunct: some record or the
no-result outcome None, never an escaping error — the try block raises only
IndexError and ValueError, exactly the kinds the except clause catches);
a response without the +CCLK: tag yields None; and the three malformed
payload shapes — missing quotes, wrong field arity inside the quotes, and
non-numeric components — also yield None. -/
theorem get_network_time_no_propagation (response_str : String) :
    (∃ r : Option ParsedTime, get_network_time response_str = .ok r) ∧
    (strContains response_str "+CCLK:" = false →
      get_network_time response_str = .ok none) ∧
    get_network_time "+CCLK: \"invalid\"\r\nOK\r\n" = .ok none ∧
    get_network_time "+CCLK: 24/12/08,14:30:45\r\nOK\r\n" = .ok none ∧
    get_network_time "+CCLK: \"aa/bb/cc,dd:ee:ff\"\r\nOK\r\n" = .ok none := by
  refine ⟨?_, ?_, by decide, by decide, by decide⟩
  · unfold get_network_time
    by_cases hc : strContains response_str "+CCLK:" = true
    · simp only [hc, if_true]
      rcases hp : parseCclk response_str with e | t
      · refine ⟨none, ?_⟩
        rcases parseCclk_error_kind _ _ hp with he | he <;> subst he <;> simp
      · exact ⟨some t, rfl⟩
    · simp only [Bool.not_eq_true] at hc
      exact ⟨none, by simp [hc]⟩
  · intro hc
    unfold get_network_time
    simp [hc]

/-- Witness for C8 at a response with no +CCLK: tag: the parser returns
the defined no-result outcome. -/
theorem get_network_time_no_propagation_witness :
    strContains "OK\r\n" "+CCLK:" = false ∧
    get_network_time "OK\r\n" = .ok none :=
  ⟨by decide, (get_network_time_no_propagation "OK\r\n").2.1 (by decide)⟩

/-! ### Lemmas about the connection controller -/

theorem tcpLoop_return_base (env : Nat → List Nat) (command ip : String)
    (port : Option Int) (attempts k : Nat)
    (hne : strContains (decode_response (env k)) "ERROR" = false)
    (hcl : isSuccessResp (decode_response (env k)) = true ∨
      isFailResp (decode_response (env k)) = false) :
    tcpLoop env command ip port attempts k = (.ok (env k), k + 1) := by
  rw [tcpLoop.eq_def]
  simp only [send_command_result, List.nil_append, hne, Bool.true_and,
    Bool.false_eq_true, if_false]
  rcases hcl with hs | hf
  · simp only [isSuccessResp, Bool.or_eq_true] at hs
    rcases hs with hs | hs <;> simp [hs]
  · by_cases h1 : strContains (decode_response (env k)) "CONNECT OK" = true
    · simp [h1]
    · by_cases h2 : strContains (decode_response (env k)) "ALREADY CONNECT" = true
      · simp [h2]
      · simp only [isFailResp] at hf
        simp only [Bool.not_eq_true] at h1 h2
        simp [h1, h2, hf]

theorem tcpLoop_failing_step (env : Nat → List Nat) (command ip : String)
    (port : Option Int) (attempts i : Nat)
    (hf : failingAttempt (decode_response (env i)) = true) :
    tcpLoop env command ip port attempts i =
      if i + 1 < attempts then tcpLoop env command ip port attempts (i + 1)
      else (.error (.connectionError
        (if strContains (decode_response (env i)) "ERROR" then
          "Connection failed: " else "Failed to connect to ") ip port), i + 1) := by
  simp only [failingAttempt, Bool.or_eq_true, Bool.and_eq_true,
    Bool.not_eq_true'] at hf
  rw [tcpLoop.eq_def]
  by_cases he : strContains (decode_response (env i)) "ERROR" = true
  · simp only [send_command_result, List.nil_append, he, Bool.true_and, if_true]
  · simp only [Bool.not_eq_true] at he
    rcases hf with hf | ⟨hsu, hfa⟩
    · rw [hf] at he
      cases he
    · simp only [send_command_result, List.nil_append, he, Bool.true_and,
        Bool.false_eq_true, if_false]
      simp only [isSuccessResp, Bool.or_eq_false_iff] at hsu
      simp only [isFailResp] at hfa
      simp [hsu.1, hsu.2, hfa, he]

theorem tcpLoop_return (env : Nat → List Nat) (command ip : String)
    (port : Option Int) (attempts k : Nat) (hk : k < attempts)
    (hfail : ∀ j, j < k → failingAttempt (decode_response (env j)) = true)
    (hne : strContains (decode_response (env k)) "ERROR" = false)
    (hcl : isSuccessResp (decode_response (env k)) = true ∨
      isFailResp (decode_response (env k)) = false) :
    ∀ n i, i ≤ k → k - i ≤ n →
      tcpLoop env command ip port attempts i = (.ok (env k), k + 1) := by
  intro n
  induction n with
  | zero =>
    intro i hi hn
    have hie : i = k := by omega
    subst hie
    exact tcpLoop_return_base env command ip port attempts i hne hcl
  | succ n ih =>
    intro i hi hn
    by_cases hie : i = k
    · subst hie
      exact tcpLoop_return_base env command ip port attempts i hne hcl
    · have hik : i < k := by omega
      rw [tcpLoop_failing_step env command ip port attempts i (hfail i hik)]
      have hlt : i + 1 < attempts := by omega
      rw [if_pos hlt]
      exact ih (i + 1) (by omega) (by omega)

theorem tcpLoop_exhaust (env : Nat → List Nat) (command ip : String)
    (port : Option Int) (attempts : Nat)
    (hfail : ∀ j, j < attempts → failingAttempt (decode_response (env j)) = true) :
    ∀ n i, i < attempts → attempts - i ≤ n →
      isConnectionFailureTo (tcpLoop env command ip port attempts i).1 ip port = true ∧
      (tcpLoop env command ip port attempts i).2 = attempts := by
  intro n
  induction n with
  | zero =>
    intro i hi hn
    omega
  | succ n ih =>
    intro i hi hn
    rw [tcpLoop_failing_step env command ip port attempts i (hfail i hi)]
    by_cases hlast : i + 1 < attempts
    · rw [if_pos hlast]
      exact ih (i + 1) hlast (by omega)
    · rw [if_neg hlast]
      have hia : i + 1 = attempts := by omega
      refine ⟨?_, hia⟩
      simp [isConnectionFailureTo]

theorem validate_ip_or_host_error (ip : String) (e : SimExc)
    (h : validate_ip_or_host ip = .error e) :
    e = .valueError "IP address or hostname cannot be empty" := by
  unfold validate_ip_or_host at h
  split at h
  · injection h with h
    exact h.symm
  · exact Except.noConfusion h

theorem validate_port_error (port : Option Int) (e : SimExc)
    (h : validate_port port = .error e) : e = .valueError "Invalid port" := by
  cases port with
  | none =>
    simp only [validate_port] at h
    injection h with h
    exact h.symm
  | some n =>
    simp only [validate_port] at h
    split at h
    · exact Except.noConfusion h
    · injection h with h
      exact h.symm

theorem validate_port_ok (port : Option Int) (h : validate_port port = .ok ()) :
    ∃ n, port = some n ∧ 1 ≤ n ∧ n ≤ 65535 := by
  cases port with
  | none => exact Except.noConfusion h
  | some n =>
    refine ⟨n, rfl, ?_⟩
    simp only [validate_port] at h
    split at h
    · next hc =>
      simp only [Bool.and_eq_true, decide_eq_true_eq] at hc
      exact hc
    · exact Except.noConfusion h

theorem validate_ip_or_host_ok (ip : String)
    (h : validate_ip_or_host ip = .ok ()) :
    ip.isEmpty = false ∧ (pyStrip ip).isEmpty = false := by
  unfold validate_ip_or_host at h
  split at h
  · exact Except.noConfusion h
  · next hc =>
    simp only [Bool.or_eq_true, not_or, Bool.not_eq_true] at hc
    exact hc

/-- On validated inputs, start_tcp_connection is the attempt loop on the
rendered AT+CIPSTART command, with retries+1 attempts when retry is set
and one attempt otherwise. -/
theorem start_tcp_connection_valid (env : Nat → List Nat) (mode ip : String)
    (port : Option Int) (retry : Bool) (retries : Nat)
    (hm : pyUpper mode = "TCP" ∨ pyUpper mode = "UDP")
    (hip : validate_ip_or_host ip = .ok ())
    (hp : validate_port port = .ok ()) :
    start_tcp_connection env mode ip port retry retries =
      tcpLoop env
        ("AT+CIPSTART=\"" ++ pyUpper mode ++ "\",\"" ++ ip ++ "\",\"" ++
          portText port ++ "\"")
        ip port (if retry then retries + 1 else 1) 0 := by
  unfold start_tcp_connection
  rcases hm with hm | hm <;> rw [hm] <;> simp [hip, hp]

/-- C5: with valid mode, host and port, an open attempt whose decoded read
window contains CONNECT OK or ALREADY CONNECT (or, failing both, does not
contain CONNECT FAIL — the pass-through case), and does not make the
executor raise, ends the loop at once: the response is returned after
exactly k+1 attempts with no retry after a classified success (first
conjunct).  When every attempt up to the configured count fails — executor
ERROR or classified CONNECT FAIL — the loop performs every attempt and
raises a Connection error carrying the host and the port (second
conjunct). -/
theorem start_tcp_connection_classification (env : Nat → List Nat)
    (mode ip : String) (port : Option Int) (retry : Bool) (retries : Nat)
    (hm : pyUpper mode = "TCP" ∨ pyUpper mode = "UDP")
    (hip : validate_ip_or_host ip = .ok ())
    (hp : validate_port port = .ok ()) :
    (∀ k, k < (if retry then retries + 1 else 1) →
      (∀ j, j < k → failingAttempt (decode_response (env j)) = true) →
      strContains (decode_response (env k)) "ERROR" = false →
      (isSuccessResp (decode_response (env k)) = true ∨
        isFailResp (decode_response (env k)) = false) →
      start_tcp_connection env mode ip port retry retries = (.ok (env k), k + 1)) ∧
    ((∀ j, j < (if retry then retries + 1 else 1) →
        failingAttempt (decode_response (env j)) = true) →
      isConnectionFailureTo
        (start_tcp_connection env mode ip port retry retries).1 ip port = true ∧
      (start_tcp_connection env mode ip port retry retries).2 =
        (if retry then retries + 1 else 1)) := by
  rw [start_tcp_connection_valid env mode ip port retry retries hm hip hp]
  constructor
  · intro k hk hfail hne hcl
    exact tcpLoop_return env _ ip port _ k hk hfail hne hcl k 0 (by omega) (by omega)
  · intro hfail
    have hpos : 0 < (if retry then retries + 1 else 1) := by
      cases retry <;> simp
    exact tcpLoop_exhaust env _ ip port _ hfail
      (if retry then retries + 1 else 1) 0 hpos (by omega)

/-- Witness for C5: with retry on and one retry allowed, a first attempt
classified CONNECT FAIL followed by an attempt classified CONNECT OK
returns the second response after exactly two attempts. -/
theorem start_tcp_connection_classification_witness :
    start_tcp_connection
      (fun j => if j = 0 then strBytes "CONNECT FAIL\r\n"
                else strBytes "CONNECT OK\r\n")
      "TCP" "example.com" (some 80) true 1 =
      (.ok (strBytes "CONNECT OK\r\n"), 2) := by
  have h := (start_tcp_connection_classification
    (fun j => if j = 0 then strBytes "CONNECT FAIL\r\n"
              else strBytes "CONNECT OK\r\n")
    "TCP" "example.com" (some 80) true 1
    (Or.inl (by decide)) (by decide) (by decide)).1 1 (by decide)
    (fun j hj => by
      have hj0 : j = 0 := by omega
      subst hj0
      decide)
    (by decide) (Or.inl (by decide))
  exact h

/-- C6: for every port that is non-numeric or outside 1..65535, and for
every empty or all-whitespace host, start_tcp_connection raises a
Validation error (a ValueError) and performs zero attempts — the second
component counts the transport writes, so no byte reaches the transport
and no retry happens. -/
theorem start_tcp_connection_validation (env : Nat → List Nat)
    (mode ip : String) (port : Option Int) (retry : Bool) (retries : Nat)
    (h : (match port with | some n => n < 1 ∨ 65535 < n | none => True) ∨
      ip = "" ∨ pyStrip ip = "") :
    isValidationFailure (start_tcp_connection env mode ip port retry retries).1 = true ∧
    (start_tcp_connection env mode ip port retry retries).2 = 0 := by
  by_cases hmode : pyUpper mode = "TCP" ∨ pyUpper mode = "UDP"
  · have hmb : (decide (pyUpper mode = "TCP") || decide (pyUpper mode = "UDP")) = true := by
      rcases hmode with hm | hm <;> simp [hm]
    rcases hv : validate_ip_or_host ip with e | u
    · have he := validate_ip_or_host_error ip e hv
      subst he
      simp [start_tcp_connection, hmb, hv, isValidationFailure]
    · obtain ⟨⟩ := u
      obtain ⟨hip1, hip2⟩ := validate_ip_or_host_ok ip hv
      rcases hq : validate_port port with e | u2
      · have he := validate_port_error port e hq
        subst he
        simp [start_tcp_connection, hmb, hv, hq, isValidationFailure]
      · exfalso
        obtain ⟨⟩ := u2
        obtain ⟨n, hn, h1, h2⟩ := validate_port_ok port hq
        rcases h with h | h | h
        · rw [hn] at h
          simp only [] at h
          omega
        · rw [h] at hip1
          simp [String.isEmpty] at hip1
        · rw [h] at hip2
          simp [String.isEmpty] at hip2
  · have hmb : (decide (pyUpper mode = "TCP") || decide (pyUpper mode = "UDP")) = false := by
      rw [not_or] at hmode
      simp [hmode.1, hmode.2]
    simp [start_tcp_connection, hmb, isValidationFailure]

/-- Witness for C6: port 0 with a well-formed host and mode fails
validation with zero transport writes. -/
theorem start_tcp_connection_validation_witness :
    isValidationFailure
      (start_tcp_connection (fun _ => []) "TCP" "example.com" (some 0) true 3).1 = true ∧
    (start_tcp_connection (fun _ => []) "TCP" "example.com" (some 0) true 3).2 = 0 :=
  start_tcp_connection_validation (fun _ => []) "TCP" "example.com" (some 0) true 3
    (Or.inl (Or.inl (by norm_num)))

end Sim800
